import Mathlib

/-!
Verification of the api-key authentication module.

The development shallowly embeds the authentication decision pipeline:
the credential extractor (configured with header "Authorization" and
prefix "Bearer "), the key validator `ApiKeyService.validateApiKey`
(src/api-key.service.ts), and the passport verify callback of
`ApiKeyStrategy` (src/strategies/api-key.strategy.ts), together with the
surrounding gate orchestration.  External collaborators (the record
store from the users package, the header extraction of the passport
strategy library, and the context enrichment performed by the host
framework) are modelled from their contracts stated in the spec.
-/

namespace ApiKey

/-- A (key, value) pair attached to a user record; the valid API key of a
user is stored under the tag key "api-key". -/
structure Tag where
  key : String
  value : String
  deriving DecidableEq, Repr

/-- A user record: an identifier `_id`, the list of tags, and `other`
standing for all remaining fields of the record, which the pipeline never
inspects.  `UserDocument` below is the store-side document form of the
same data; in this embedding the document and its plain JSON form carry
the same fields. -/
structure UserDocument where
  _id : String
  tags : List Tag
  other : String
  deriving DecidableEq, Repr

/-- The plain (non-document) user object.  `toJSON` converts a document
to this form; since the embedding does not distinguish object
representations, the two types coincide. -/
abbrev User := UserDocument

/-- Transcribes `userDocument.toJSON()`: the plain object holding the same
fields as the document. -/
def UserDocument.toJSON (d : UserDocument) : User := d

/-- The compound filter that `validateApiKey` passes to `findOne`:
`\x7b _id: user._id, "tags.key": "api-key", "tags.value": apiKey \x7d`.
`tagsKey` and `tagsValue` embed the dotted keys "tags.key" and
"tags.value" of the source filter object. -/
structure QueryFilter where
  _id : String
  tagsKey : String
  tagsValue : String
  deriving DecidableEq, Repr

/-- Modelled from the spec: the record-store matching semantics of the
consumed `findOne` contract (spec section 6) — exact match on the identity
reference and on a nested tag (name, value) pair. -/
def matchesFilter (q : QueryFilter) (d : UserDocument) : Bool :=
  d._id == q._id && d.tags.any fun t => t.key == q.tagsKey && t.value == q.tagsValue

/-- Modelled from the spec: the state of the external record store, which
is not part of this repository.  `docs` is its content and `failure`
models a transport or storage error raised by the store call (spec
section 6: absence is a normal result, transport errors are raised). -/
structure StoreState where
  docs : List UserDocument
  failure : Option String
  deriving DecidableEq, Repr

/-- Modelled from the spec: `UserModelService.findOne` of the external
users package.  Raises the transport error when the store is failing;
otherwise returns the first record matching the compound filter, or
absence. -/
def StoreState.findOne (s : StoreState) (q : QueryFilter) : Except String (Option UserDocument) :=
  match s.failure with
  | some e => .error e
  | none => .ok (s.docs.find? (matchesFilter q))

/-- A JavaScript value as observed by the strategy callback: `undefined`,
`null`, or a user object.  `undefined` and `null` are both falsy; an
object is truthy. -/
inductive JSValue
  | undef
  | null
  | obj (u : User)
  deriving DecidableEq, Repr

/-- Transcribes the optional chaining `userDocument?.toJSON()`: a nullish
document yields `undefined`; otherwise the JSON form of the document. -/
def optChainToJSON : Option UserDocument → JSValue
  | none => .undef
  | some d => .obj d.toJSON

/-- An error escaping the promise of `validateApiKey`: the TypeError
thrown by reading `_id` of a nullish `user`, or the error raised by the
store call. -/
inductive JsError
  | typeError
  | storeError (msg : String)
  deriving DecidableEq, Repr

/-- Transcribes `ApiKeyService.validateApiKey` (src/api-key.service.ts).
The first component lists the store lookups issued during the call, in
order.  With a nullish `user`, evaluating `user._id` in the filter throws
before any lookup, and the promise rejects with that TypeError.
Otherwise exactly one `findOne` lookup is issued with the compound
filter; a raised store error rejects the promise, and a normal reply
resolves it with `userDocument?.toJSON()`. -/
def validateApiKey (store : StoreState) (apiKey : String) (user : Option UserDocument) :
    List QueryFilter × Except JsError JSValue :=
  match user with
  | none => ([], .error .typeError)
  | some u =>
    let q : QueryFilter := { _id := u._id, tagsKey := "api-key", tagsValue := apiKey }
    ([q],
      match store.findOne q with
      | .ok d => .ok (optChainToJSON d)
      | .error e => .error (.storeError e))

/-- The outcome signalled through the passport `done` callback by the
verify function of the strategy: `done(null, user)`, `done(null, false)`,
or `done(error)`. -/
inductive DoneCall
  | allowed (u : User)
  | failed
  | errored (e : JsError)
  deriving DecidableEq, Repr

/-- Transcribes the verify callback of `ApiKeyStrategy`
(src/strategies/api-key.strategy.ts): it awaits
`validateApiKey(apiKey, request.user)`; a falsy result (`undefined` or
`null`) signals `done(null, false)`, a user object signals
`done(null, user)`, and a caught error signals `done(error)`. -/
def strategyVerify (store : StoreState) (apiKey : String) (requestUser : Option UserDocument) :
    List QueryFilter × DoneCall :=
  let vr := validateApiKey store apiKey requestUser
  (vr.1,
    match vr.2 with
    | .ok (.obj u) => .allowed u
    | .ok _ => .failed
    | .error e => .errored e)

/-- Modelled from the spec: the per-request context (spec section 3).
`authorizationHeader` is the value of the "Authorization" header,
`user` is `request.user` — the claimed identity attached by the upstream
stage, later overwritten with the resolved user on success — and `other`
stands for every remaining request field, which the pipeline never
touches. -/
structure RequestContext where
  authorizationHeader : Option String
  user : Option UserDocument
  other : String
  deriving DecidableEq, Repr

/-- Modelled from the spec: the credential extraction performed by the
strategy library on the configured header (spec section 4.1), with the
prefix "Bearer " configured in the strategy source: an absent header
yields absence; a header not starting with the exact prefix yields
absence; otherwise the remainder after the 7-character prefix, unmodified. -/
def stripBearer (v : String) : Option String :=
  if v.data.take 7 = "Bearer ".data then some (String.mk (v.data.drop 7)) else none

/-- Extraction of the credential from the optional header value. -/
def extractCredential (h : Option String) : Option String :=
  h.bind stripBearer

/-- The authentication outcome of the gate, following the taxonomy of the
spec (section 3).  `deniedUpstreamError` carries the error surfaced
through `done(error)` to the error-reporting path of the host.
`deniedIdentityNotFound` is listed in the taxonomy of the spec; the
theorems below settle whether the code produces it. -/
inductive AuthOutcome
  | allowed (u : User)
  | deniedMissingCredential
  | deniedIdentityNotFound
  | deniedCredentialMismatch
  | deniedUpstreamError (e : JsError)
  deriving DecidableEq, Repr

/-- Whether an outcome is an allow. -/
def AuthOutcome.isAllowed : AuthOutcome → Bool
  | .allowed _ => true
  | _ => false

/-- The full gate run on one request: extraction (modelled from the spec,
section 4.3 step 1: absence denies with missing-credential), then the
verify callback transcribed from the strategy source, then the mapping of
the `done` signal to an outcome and the context enrichment performed by
the host framework (modelled from the spec: on success the resolved user
is attached to the context; otherwise the context is returned as
received).  Returns the store lookups issued, the outcome, and the final
request context. -/
def authenticate (store : StoreState) (req : RequestContext) :
    List QueryFilter × AuthOutcome × RequestContext :=
  match extractCredential req.authorizationHeader with
  | none => ([], .deniedMissingCredential, req)
  | some cred =>
    let sv := strategyVerify store cred req.user
    match sv.2 with
    | .allowed u => (sv.1, .allowed u, { req with user := some u })
    | .failed => (sv.1, .deniedCredentialMismatch, req)
    | .errored e => (sv.1, .deniedUpstreamError e, req)

/-! Concrete sample data used to evaluate the pipeline on closed inputs. -/

/-- A user holding the valid tag ("api-key", "abc123"). -/
def sampleUser : UserDocument :=
  { _id := "u1", tags := [{ key := "api-key", value := "abc123" }], other := "x" }

/-- A user with the same identifier as `sampleUser` but different
remaining fields and no tags at all. -/
def altUser : UserDocument := { _id := "u1", tags := [], other := "z" }

/-- A user whose "api-key" tag value is the empty string. -/
def emptyTagUser : UserDocument :=
  { _id := "u2", tags := [{ key := "api-key", value := "" }], other := "y" }

/-- A user whose "api-key" tag holds a different value. -/
def wrongKeyUser : UserDocument :=
  { _id := "u1", tags := [{ key := "api-key", value := "other" }], other := "x" }

/-- A store holding `sampleUser`, answering normally. -/
def sampleStore : StoreState := { docs := [sampleUser], failure := none }

/-- A store holding no records, answering normally. -/
def emptyStore : StoreState := { docs := [], failure := none }

/-- A store where the only record with identifier "u1" has a wrong key. -/
def wrongKeyStore : StoreState := { docs := [wrongKeyUser], failure := none }

/-- A store whose lookups raise a transport error. -/
def failingStore : StoreState := { docs := [sampleUser], failure := some "econnrefused" }

/-- A store holding a user whose "api-key" tag value is empty. -/
def emptyTagStore : StoreState := { docs := [emptyTagUser], failure := none }

/-- A request with a well-formed header and `sampleUser` as claimed
identity. -/
def sampleReq : RequestContext :=
  { authorizationHeader := some "Bearer abc123", user := some sampleUser, other := "r" }

/-- Like `sampleReq` but with `altUser` as claimed identity. -/
def altReq : RequestContext :=
  { authorizationHeader := some "Bearer abc123", user := some altUser, other := "r" }

/-- A request with a well-formed header but no claimed identity. -/
def noIdentityReq : RequestContext :=
  { authorizationHeader := some "Bearer abc123", user := none, other := "r" }

/-- A request without an Authorization header. -/
def noHeaderReq : RequestContext :=
  { authorizationHeader := none, user := some sampleUser, other := "r" }

/-! Helper lemmas: the value of `authenticate` on each path of the
pipeline, and the characterisation of the compound filter. -/

/-- The compound filter matches a record exactly when the record
identifier equals the filter identifier and a single tag of the record
carries both the filter tag key and the filter tag value. -/
theorem matchesFilter_iff (q : QueryFilter) (d : UserDocument) :
    matchesFilter q d = true ↔
      d._id = q._id ∧ ∃ t ∈ d.tags, t.key = q.tagsKey ∧ t.value = q.tagsValue := by
  simp [matchesFilter, List.any_eq_true]

/-- With no extractable credential the gate stops before the verify
callback. -/
theorem authenticate_of_extract_none (store : StoreState) (req : RequestContext)
    (h : extractCredential req.authorizationHeader = none) :
    authenticate store req = ([], .deniedMissingCredential, req) := by
  simp [authenticate, h]

/-- With a credential but no claimed identity, the TypeError thrown while
building the filter is signalled through the error path, before any
lookup. -/
theorem authenticate_of_user_none (store : StoreState) (req : RequestContext) (cred : String)
    (hc : extractCredential req.authorizationHeader = some cred) (hu : req.user = none) :
    authenticate store req = ([], .deniedUpstreamError .typeError, req) := by
  simp [authenticate, hc, strategyVerify, validateApiKey, hu]

/-- With a credential and a claimed identity, a failing store surfaces
its error through the error path after the single lookup. -/
theorem authenticate_of_store_failure (store : StoreState) (req : RequestContext)
    (u : UserDocument) (cred : String) (e : String)
    (hc : extractCredential req.authorizationHeader = some cred) (hu : req.user = some u)
    (hf : store.failure = some e) :
    authenticate store req =
      ([{ _id := u._id, tagsKey := "api-key", tagsValue := cred }],
        .deniedUpstreamError (.storeError e), req) := by
  simp [authenticate, hc, strategyVerify, validateApiKey, hu, StoreState.findOne, hf]

/-- With a credential and a claimed identity, an empty lookup reply is a
credential mismatch. -/
theorem authenticate_of_find_none (store : StoreState) (req : RequestContext)
    (u : UserDocument) (cred : String)
    (hc : extractCredential req.authorizationHeader = some cred) (hu : req.user = some u)
    (hf : store.failure = none)
    (hfind : store.docs.find? (matchesFilter { _id := u._id, tagsKey := "api-key", tagsValue := cred }) = none) :
    authenticate store req =
      ([{ _id := u._id, tagsKey := "api-key", tagsValue := cred }],
        .deniedCredentialMismatch, req) := by
  simp [authenticate, hc, strategyVerify, validateApiKey, hu, StoreState.findOne, hf, hfind,
    optChainToJSON]

/-- With a credential and a claimed identity, a found record resolves to
its JSON form, is allowed, and is attached to the context. -/
theorem authenticate_of_find_some (store : StoreState) (req : RequestContext)
    (u : UserDocument) (cred : String) (d : UserDocument)
    (hc : extractCredential req.authorizationHeader = some cred) (hu : req.user = some u)
    (hf : store.failure = none)
    (hfind : store.docs.find? (matchesFilter { _id := u._id, tagsKey := "api-key", tagsValue := cred }) = some d) :
    authenticate store req =
      ([{ _id := u._id, tagsKey := "api-key", tagsValue := cred }],
        .allowed d.toJSON, { req with user := some d.toJSON }) := by
  simp [authenticate, hc, strategyVerify, validateApiKey, hu, StoreState.findOne, hf, hfind,
    optChainToJSON]

/-! Claim theorems. -/

/-- Claim C1: for every credential string and claimed identity,
`validateApiKey` issues exactly one store lookup, whose filter requires
the record identifier to equal the claimed identity reference and a
single tag of the record to carry name "api-key" and value equal to the
credential; and whenever the store (answering normally) holds such a
matching tag for that identity, `authenticate` returns an allow carrying
that identity. -/
theorem validateApiKey_single_lookup_and_allow :
    (∀ (store : StoreState) (apiKey : String) (u : UserDocument),
        (validateApiKey store apiKey (some u)).1 =
          [{ _id := u._id, tagsKey := "api-key", tagsValue := apiKey }]) ∧
    (∀ (u : UserDocument) (apiKey : String) (d : UserDocument),
        matchesFilter { _id := u._id, tagsKey := "api-key", tagsValue := apiKey } d = true ↔
          d._id = u._id ∧ ∃ t ∈ d.tags, t.key = "api-key" ∧ t.value = apiKey) ∧
    (∀ (store : StoreState) (req : RequestContext) (u : UserDocument) (apiKey : String),
        req.user = some u →
        extractCredential req.authorizationHeader = some apiKey →
        store.failure = none →
        (∃ d ∈ store.docs, d._id = u._id ∧ ∃ t ∈ d.tags, t.key = "api-key" ∧ t.value = apiKey) →
        ∃ v, (authenticate store req).2.1 = .allowed v ∧ v._id = u._id ∧
          ∃ t ∈ v.tags, t.key = "api-key" ∧ t.value = apiKey) := by
  refine ⟨fun store apiKey u => rfl, fun u apiKey d => matchesFilter_iff _ _, ?_⟩
  intro store req u apiKey hu hc hok hmatch
  obtain ⟨d, hd, hdm⟩ := hmatch
  have hm : matchesFilter { _id := u._id, tagsKey := "api-key", tagsValue := apiKey } d = true :=
    (matchesFilter_iff _ _).2 hdm
  have hsome : (store.docs.find?
      (matchesFilter { _id := u._id, tagsKey := "api-key", tagsValue := apiKey })).isSome := by
    rw [List.find?_isSome]
    exact ⟨d, hd, hm⟩
  obtain ⟨d', hd'⟩ := Option.isSome_iff_exists.1 hsome
  have hm' := (matchesFilter_iff _ _).1 (List.find?_some hd')
  refine ⟨d'.toJSON, ?_, hm'.1, hm'.2⟩
  rw [authenticate_of_find_some store req u apiKey d' hc hu hok hd']

/-- Witness for C1 at the concrete store holding ("api-key", "abc123")
for identity "u1". -/
theorem validateApiKey_single_lookup_and_allow_witness :
    ∃ v, (authenticate sampleStore sampleReq).2.1 = .allowed v ∧ v._id = sampleUser._id ∧
      ∃ t ∈ v.tags, t.key = "api-key" ∧ t.value = "abc123" :=
  validateApiKey_single_lookup_and_allow.2.2 sampleStore sampleReq sampleUser "abc123"
    rfl (by decide) rfl (by decide)

/-- Claim C2 counterexample: with the empty credential, `validateApiKey`
does issue a store lookup; moreover against a store holding an identity
whose "api-key" tag value is the empty string, it resolves to that user
rather than to a validation failure. -/
theorem validateApiKey_empty_credential_cex :
    (validateApiKey emptyTagStore "" (some emptyTagUser)).1 ≠ [] ∧
    (validateApiKey emptyTagStore "" (some emptyTagUser)).2 = .ok (.obj emptyTagUser) :=
  ⟨by decide, rfl⟩

/-- Claim C2 amended: `validateApiKey` submits the empty credential to
the store exactly like any other credential: one lookup is issued, its
filter carrying the empty string as tag value. -/
theorem validateApiKey_empty_credential_issues_query (store : StoreState) (u : UserDocument) :
    (validateApiKey store "" (some u)).1 =
      [{ _id := u._id, tagsKey := "api-key", tagsValue := "" }] := rfl

/-- Claim C3 counterexample: on a request carrying the well-formed header
"Bearer abc123" but no claimed identity, `authenticate` ends in the
error-surfacing path with the thrown TypeError, not in a denial with
reason identity-not-found. -/
theorem authenticate_no_identity_cex :
    (authenticate emptyStore noIdentityReq).2.1 = .deniedUpstreamError .typeError ∧
    (authenticate emptyStore noIdentityReq).2.1 ≠ .deniedIdentityNotFound ∧
    extractCredential noIdentityReq.authorizationHeader = some "abc123" := by
  decide

/-- Claim C3 amended: on every request carrying a well-formed credential
header but no claimed identity, reading `_id` of the missing user throws
a TypeError, which the strategy forwards through `done(error)`: the run
ends in the error-surfacing outcome carrying that TypeError, with no
store lookup issued — not in a denial with reason identity-not-found. -/
theorem authenticate_no_identity_type_error (store : StoreState) (req : RequestContext)
    (cred : String)
    (hc : extractCredential req.authorizationHeader = some cred) (hu : req.user = none) :
    (authenticate store req).2.1 = .deniedUpstreamError .typeError ∧
    (authenticate store req).1 = [] := by
  rw [authenticate_of_user_none store req cred hc hu]
  exact ⟨rfl, rfl⟩

/-- Witness for the amended C3 at a concrete request. -/
theorem authenticate_no_identity_type_error_witness :
    (authenticate sampleStore noIdentityReq).2.1 = .deniedUpstreamError .typeError ∧
    (authenticate sampleStore noIdentityReq).1 = [] :=
  authenticate_no_identity_type_error sampleStore noIdentityReq "abc123" (by decide) rfl

/-- Claim C4: when the validator resolves to absence, `authenticate`
produces the credential-mismatch denial; when the underlying store call
errors, it produces the upstream-error denial carrying the surfaced
error; and an allow is produced only when the store answered normally
with a matching record — every failure kind terminates in a denial. -/
theorem authenticate_failures_deny :
    (∀ (store : StoreState) (req : RequestContext) (u : UserDocument) (cred e : String),
        req.user = some u →
        extractCredential req.authorizationHeader = some cred →
        store.failure = some e →
        (authenticate store req).2.1 = .deniedUpstreamError (.storeError e)) ∧
    (∀ (store : StoreState) (req : RequestContext) (u : UserDocument) (cred : String),
        req.user = some u →
        extractCredential req.authorizationHeader = some cred →
        store.failure = none →
        store.docs.find?
          (matchesFilter { _id := u._id, tagsKey := "api-key", tagsValue := cred }) = none →
        (authenticate store req).2.1 = .deniedCredentialMismatch) ∧
    (∀ (store : StoreState) (req : RequestContext) (v : User),
        (authenticate store req).2.1 = .allowed v →
        ∃ u cred d, req.user = some u ∧
          extractCredential req.authorizationHeader = some cred ∧
          store.failure = none ∧
          store.docs.find?
            (matchesFilter { _id := u._id, tagsKey := "api-key", tagsValue := cred }) = some d ∧
          v = d.toJSON) := by
  refine ⟨?_, ?_, ?_⟩
  · intro store req u cred e hu hc hf
    rw [authenticate_of_store_failure store req u cred e hc hu hf]
  · intro store req u cred hu hc hf hfind
    rw [authenticate_of_find_none store req u cred hc hu hf hfind]
  · intro store req v h
    cases hc : extractCredential req.authorizationHeader with
    | none =>
        rw [authenticate_of_extract_none store req hc] at h
        exact absurd h (by simp)
    | some cred =>
        cases hu : req.user with
        | none =>
            rw [authenticate_of_user_none store req cred hc hu] at h
            exact absurd h (by simp)
        | some u =>
            cases hf : store.failure with
            | some e =>
                rw [authenticate_of_store_failure store req u cred e hc hu hf] at h
                exact absurd h (by simp)
            | none =>
                cases hfind : store.docs.find?
                    (matchesFilter { _id := u._id, tagsKey := "api-key", tagsValue := cred }) with
                | none =>
                    rw [authenticate_of_find_none store req u cred hc hu hf hfind] at h
                    exact absurd h (by simp)
                | some d =>
                    rw [authenticate_of_find_some store req u cred d hc hu hf hfind] at h
                    simp only [AuthOutcome.allowed.injEq] at h
                    exact ⟨u, cred, d, rfl, rfl, rfl, hfind, h.symm⟩

/-- Witness for C4: the failing store yields the upstream-error denial
carrying the transport error, and the wrong-key store yields the
credential-mismatch denial. -/
theorem authenticate_failures_deny_witness :
    (authenticate failingStore sampleReq).2.1 = .deniedUpstreamError (.storeError "econnrefused") ∧
    (authenticate wrongKeyStore sampleReq).2.1 = .deniedCredentialMismatch :=
  ⟨authenticate_failures_deny.1 failingStore sampleReq sampleUser "abc123" "econnrefused"
      rfl (by decide) rfl,
    authenticate_failures_deny.2.1 wrongKeyStore sampleReq sampleUser "abc123"
      rfl (by decide) rfl (by decide)⟩

/-- Claim C5: on any denial the request context comes back exactly as it
went in; only an allow changes it, and only by attaching the resolved
user to the `user` field. -/
theorem authenticate_frame (store : StoreState) (req : RequestContext) :
    (∀ v, (authenticate store req).2.1 = .allowed v →
        (authenticate store req).2.2 = { req with user := some v }) ∧
    ((authenticate store req).2.1.isAllowed = false → (authenticate store req).2.2 = req) := by
  cases hc : extractCredential req.authorizationHeader with
  | none =>
      rw [authenticate_of_extract_none store req hc]
      exact ⟨fun v h => absurd h (by simp), fun _ => rfl⟩
  | some cred =>
      cases hu : req.user with
      | none =>
          rw [authenticate_of_user_none store req cred hc hu]
          exact ⟨fun v h => absurd h (by simp), fun _ => rfl⟩
      | some u =>
          cases hf : store.failure with
          | some e =>
              rw [authenticate_of_store_failure store req u cred e hc hu hf]
              exact ⟨fun v h => absurd h (by simp), fun _ => rfl⟩
          | none =>
              cases hfind : store.docs.find?
                  (matchesFilter { _id := u._id, tagsKey := "api-key", tagsValue := cred }) with
              | none =>
                  rw [authenticate_of_find_none store req u cred hc hu hf hfind]
                  exact ⟨fun v h => absurd h (by simp), fun _ => rfl⟩
              | some d =>
                  rw [authenticate_of_find_some store req u cred d hc hu hf hfind]
                  refine ⟨fun v h => ?_, fun h => absurd h (by simp [AuthOutcome.isAllowed])⟩
                  simp only [AuthOutcome.allowed.injEq] at h
                  rw [h]

/-- Witness for C5: an allow attaches the resolved user; a denial leaves
the request unchanged. -/
theorem authenticate_frame_witness :
    (authenticate sampleStore sampleReq).2.2 = { sampleReq with user := some sampleUser } ∧
    (authenticate emptyStore sampleReq).2.2 = sampleReq :=
  ⟨(authenticate_frame sampleStore sampleReq).1 sampleUser (by decide),
    (authenticate_frame emptyStore sampleReq).2 (by decide)⟩

/-- Claim C6: extraction yields absence on a missing header and on a
header not starting with the exact prefix "Bearer "; otherwise it yields
exactly the remainder after the prefix, unmodified; and absence leads
`authenticate` to the missing-credential denial. -/
theorem extractCredential_spec :
    extractCredential none = none ∧
    (∀ v : String, ¬ ("Bearer ".data <+: v.data) → extractCredential (some v) = none) ∧
    (∀ k : String, extractCredential (some ("Bearer " ++ k)) = some k) ∧
    (∀ (store : StoreState) (req : RequestContext),
        extractCredential req.authorizationHeader = none →
        (authenticate store req).2.1 = .deniedMissingCredential) := by
  refine ⟨rfl, ?_, ?_, ?_⟩
  · intro v h
    show stripBearer v = none
    rw [stripBearer, if_neg]
    intro heq
    exact h (heq ▸ List.take_prefix 7 v.data)
  · intro k
    show stripBearer ("Bearer " ++ k) = some k
    have hdata : ("Bearer " ++ k).data = "Bearer ".data ++ k.data := by
      simp
    have hlen : ("Bearer ".data).length = 7 := by decide
    rw [stripBearer, hdata, if_pos]
    · rw [← hlen, List.drop_left]
    · rw [← hlen, List.take_left]
  · intro store req h
    rw [authenticate_of_extract_none store req h]

/-- Witness for C6: a wrong prefix is treated as absence, a well-formed
header yields the remainder, and a missing header denies with
missing-credential. -/
theorem extractCredential_spec_witness :
    extractCredential (some "Token abc123") = none ∧
    extractCredential (some ("Bearer " ++ "abc123")) = some "abc123" ∧
    (authenticate sampleStore noHeaderReq).2.1 = .deniedMissingCredential :=
  ⟨extractCredential_spec.2.1 "Token abc123" (by decide),
    extractCredential_spec.2.2.1 "abc123",
    extractCredential_spec.2.2.2 sampleStore noHeaderReq rfl⟩

/-- Claim C7: `authenticate` is deterministic in the request state and
the store content — two runs on identical request state against an
unchanged store produce identical results (lookups, outcome and final
context). -/
theorem authenticate_deterministic (store₁ store₂ : StoreState) (req₁ req₂ : RequestContext)
    (hs : store₁ = store₂) (hr : req₁ = req₂) :
    authenticate store₁ req₁ = authenticate store₂ req₂ := by
  rw [hs, hr]

/-- Witness for C7 at a concrete request and store. -/
theorem authenticate_deterministic_witness :
    authenticate sampleStore sampleReq = authenticate sampleStore sampleReq :=
  authenticate_deterministic sampleStore sampleStore sampleReq sampleReq rfl rfl

/-- Claim C8: when every record of the store carrying the claimed
identifier lacks a matching ("api-key", credential) tag, and when the
store holds no record with that identifier at all, `authenticate` denies
with credential-mismatch in both cases — the two runs produce the same
outcome, indistinguishable to the caller. -/
theorem authenticate_mismatch_indistinguishable (s₁ s₂ : StoreState) (req : RequestContext)
    (u : UserDocument) (cred : String)
    (hu : req.user = some u) (hc : extractCredential req.authorizationHeader = some cred)
    (hf₁ : s₁.failure = none) (hf₂ : s₂.failure = none)
    (h₁ : ∀ d ∈ s₁.docs, d._id = u._id → ¬ ∃ t ∈ d.tags, t.key = "api-key" ∧ t.value = cred)
    (h₂ : ∀ d ∈ s₂.docs, d._id ≠ u._id) :
    (authenticate s₁ req).2.1 = .deniedCredentialMismatch ∧
    (authenticate s₂ req).2.1 = .deniedCredentialMismatch ∧
    (authenticate s₁ req).2.1 = (authenticate s₂ req).2.1 := by
  have hfind₁ : s₁.docs.find?
      (matchesFilter { _id := u._id, tagsKey := "api-key", tagsValue := cred }) = none := by
    rw [List.find?_eq_none]
    intro d hd hm
    exact h₁ d hd ((matchesFilter_iff _ _).1 hm).1 ((matchesFilter_iff _ _).1 hm).2
  have hfind₂ : s₂.docs.find?
      (matchesFilter { _id := u._id, tagsKey := "api-key", tagsValue := cred }) = none := by
    rw [List.find?_eq_none]
    intro d hd hm
    exact h₂ d hd ((matchesFilter_iff _ _).1 hm).1
  rw [authenticate_of_find_none s₁ req u cred hc hu hf₁ hfind₁,
    authenticate_of_find_none s₂ req u cred hc hu hf₂ hfind₂]
  exact ⟨rfl, rfl, rfl⟩

/-- Witness for C8: the wrong-key store and the empty store produce the
same credential-mismatch denial. -/
theorem authenticate_mismatch_indistinguishable_witness :
    (authenticate wrongKeyStore sampleReq).2.1 = .deniedCredentialMismatch ∧
    (authenticate emptyStore sampleReq).2.1 = .deniedCredentialMismatch ∧
    (authenticate wrongKeyStore sampleReq).2.1 = (authenticate emptyStore sampleReq).2.1 :=
  authenticate_mismatch_indistinguishable wrongKeyStore emptyStore sampleReq sampleUser "abc123"
    rfl (by decide) rfl rfl (by decide) (by decide)

/-- Claim C9: on a lookup that finds no matching record, `validateApiKey`
resolves (rather than rejects) with the value `undefined` — not `null`
and not an exception — and the strategy callback maps that falsy result
to the authentication-failure signal `done(null, false)`, not to an error
signal. -/
theorem validateApiKey_absent_resolves_undefined (store : StoreState) (cred : String)
    (u : UserDocument)
    (hf : store.failure = none)
    (hfind : store.docs.find?
      (matchesFilter { _id := u._id, tagsKey := "api-key", tagsValue := cred }) = none) :
    (validateApiKey store cred (some u)).2 = .ok JSValue.undef ∧
    JSValue.undef ≠ JSValue.null ∧
    (strategyVerify store cred (some u)).2 = .failed := by
  refine ⟨?_, by simp, ?_⟩ <;>
    simp [validateApiKey, strategyVerify, StoreState.findOne, hf, hfind, optChainToJSON]

/-- Witness for C9 at the empty store. -/
theorem validateApiKey_absent_resolves_undefined_witness :
    (validateApiKey emptyStore "abc123" (some sampleUser)).2 = .ok JSValue.undef ∧
    JSValue.undef ≠ JSValue.null ∧
    (strategyVerify emptyStore "abc123" (some sampleUser)).2 = .failed :=
  validateApiKey_absent_resolves_undefined emptyStore "abc123" sampleUser rfl (by decide)

/-- Claim C10: the outcome of `authenticate` depends only on the header
value, the `_id` field of the claimed identity document, and the store:
two requests agreeing on those — whatever their other claimed-identity
fields, tags included — receive identical outcomes. -/
theorem authenticate_depends_only_on_id (store : StoreState) (req₁ req₂ : RequestContext)
    (u₁ u₂ : UserDocument)
    (h₁ : req₁.user = some u₁) (h₂ : req₂.user = some u₂)
    (hh : req₁.authorizationHeader = req₂.authorizationHeader)
    (hid : u₁._id = u₂._id) :
    (authenticate store req₁).2.1 = (authenticate store req₂).2.1 := by
  cases hc : extractCredential req₁.authorizationHeader with
  | none =>
      rw [authenticate_of_extract_none store req₁ hc,
        authenticate_of_extract_none store req₂ (hh ▸ hc)]
  | some cred =>
      have hc₂ : extractCredential req₂.authorizationHeader = some cred := hh ▸ hc
      have hq : ({ _id := u₁._id, tagsKey := "api-key", tagsValue := cred } : QueryFilter) =
          { _id := u₂._id, tagsKey := "api-key", tagsValue := cred } := by rw [hid]
      cases hf : store.failure with
      | some e =>
          rw [authenticate_of_store_failure store req₁ u₁ cred e hc h₁ hf,
            authenticate_of_store_failure store req₂ u₂ cred e hc₂ h₂ hf]
      | none =>
          cases hfind : store.docs.find?
              (matchesFilter { _id := u₁._id, tagsKey := "api-key", tagsValue := cred }) with
          | none =>
              rw [authenticate_of_find_none store req₁ u₁ cred hc h₁ hf hfind,
                authenticate_of_find_none store req₂ u₂ cred hc₂ h₂ hf (hq ▸ hfind)]
          | some d =>
              rw [authenticate_of_find_some store req₁ u₁ cred d hc h₁ hf hfind,
                authenticate_of_find_some store req₂ u₂ cred d hc₂ h₂ hf (hq ▸ hfind)]

/-- Witness for C10: `sampleUser` and `altUser` share the identifier
"u1" but differ in tags and remaining fields; both requests receive the
same outcome. -/
theorem authenticate_depends_only_on_id_witness :
    (authenticate sampleStore sampleReq).2.1 = (authenticate sampleStore altReq).2.1 :=
  authenticate_depends_only_on_id sampleStore sampleReq altReq sampleUser altUser
    rfl rfl rfl rfl

end ApiKey
